import Mathlib

/-!
Verification of the tensorforce conjugate-gradient solver
(`tensorforce/core/optimizers/solvers/conjugate_gradient.py`) and the
optimizer composition wrapper
(`tensorforce/core/optimizers/update_modifier_wrapper.py`).

Tensors are modelled as lists of rationals (exact arithmetic in place of
TensorFlow floats); a `StructuredValue` (tensorforce `TensorDict`) is an
ordered association list from value names to tensors.  Fallible TensorFlow
operations are modelled with `Except String`.
-/

namespace Tensorforce

/-- A single named tensor's payload: its flattened list of elements. -/
abbrev Tensor := List ℚ

/-- A structured value collection (tensorforce `TensorDict`): an ordered
mapping from value names to tensors. -/
abbrev StructuredValue := List (String × Tensor)

/-- Models `tf.zeros_like` lifted over a structured value via `fmap`: the structure
of the input with every element replaced by zero. -/
def zeros_like (sv : StructuredValue) : StructuredValue :=
  sv.map (fun p => (p.1, p.2.map (fun _ => (0 : ℚ))))

/-- Models `TensorDict.fmap` with a binary elementwise function and `zip_values`:
the two structures are traversed in parallel (the values specification
guarantees identical ordered key sets) and the function is applied
elementwise per key. -/
def fmap2 (f : ℚ → ℚ → ℚ) (sv other : StructuredValue) : StructuredValue :=
  List.zipWith (fun p q => (p.1, List.zipWith f p.2 q.2)) sv other

/-- Models `tf.math.reduce_sum` over one tensor. -/
def reduce_sum (t : Tensor) : ℚ := t.sum

/-- Models `tf.math.add_n`: sums a list of scalars, but raises `ValueError` when
the input list is empty ("inputs must be a list of at least one Tensor"). -/
def add_n (inputs : List ℚ) : Except String ℚ :=
  match inputs with
  | [] => Except.error "ValueError: inputs must be a list of at least one Tensor"
  | _ => Except.ok inputs.sum

/-- Models `TensorDict.fmap` invoked with a TWO-parameter function but with
`zip_values=None` (as on the `conjugate_A_conjugate` line of
`ConjugateGradient.step`): `fmap` calls `function(value)` with a single
argument for every key, so the call raises `TypeError` as soon as there is
at least one key; with no keys the function is never invoked and the empty
structure is returned. -/
def fmapBinaryNoZip (sv : StructuredValue) : Except String StructuredValue :=
  match sv with
  | [] => Except.ok []
  | _ => Except.error "TypeError: <lambda> missing 1 required positional argument"

/-- Library-wide numerical floor, modelled from the library constant
`tensorforce.util.epsilon = 1e-6` (referenced by the source as
`util.epsilon`; `util.py` itself is outside the analysed sources). -/
def epsilon : ℚ := 1 / 1000000

/-- The sum over all keys of the sum of squares of a structured value's
elements (the spec's "reduce-sum-of-squares", as a total function). -/
def sumOfSquares (sv : StructuredValue) : ℚ :=
  (sv.map (fun p => (p.2.map (fun r => r * r)).sum)).sum

/-- The conjugate-gradient loop state `(x, conjugate, residual,
squared_residual)`. -/
structure SolverState where
  x : StructuredValue
  conjugate : StructuredValue
  residual : StructuredValue
  squared_residual : ℚ

/-- Models `ConjugateGradient.start`: if `x_init` is unset it becomes the all-zero
structure matching `b`; then `residual = conjugate = x_init - fn_x(x_init)`
(elementwise per key) and `squared_residual` is the `add_n` of the per-key
sums of squares of the residual (which raises on an empty structure). -/
def start (fn_x : StructuredValue → StructuredValue) (x_init : Option StructuredValue)
    (b : StructuredValue) :
    Except String (StructuredValue × StructuredValue × StructuredValue × ℚ) := do
  let x0 := match x_init with
    | none => zeros_like b
    | some x => x
  let fx := fn_x x0
  let residual := fmap2 (fun t ft => t - ft) x0 fx
  let conjugate := residual
  let squared_residual ← add_n
    (residual.map (fun p => reduce_sum (p.2.map (fun r => r * r))))
  return (x0, conjugate, residual, squared_residual)

/-- Models `ConjugateGradient.step`: one loop iteration.  `A_conjugate` is
`fn_x(conjugate)`, damped elementwise when the damping scalar is nonzero
(`tf.cond`).  The `conjugate_A_conjugate` line calls `fmap` with a binary
lambda but WITHOUT `zip_values` (the source line
`conjugate.fmap(function=(lambda conj, A_conj: conj * A_conj))`), which
raises `TypeError` on any non-empty structure; only then would the scalar
reduction, `alpha`, the updated `x`, residual, `squared_residual`, `beta`
and conjugate be produced. -/
def step (fn_x : StructuredValue → StructuredValue) (damping : ℚ) (s : SolverState) :
    Except String SolverState := do
  let A0 := fn_x s.conjugate
  let A_conjugate := if damping = 0 then A0
    else fmap2 (fun A_conj conj => A_conj + damping * conj) A0 s.conjugate
  let cAc_structure ← fmapBinaryNoZip s.conjugate
  let conjugate_A_conjugate ← add_n (cAc_structure.map (fun p => reduce_sum p.2))
  let alpha := s.squared_residual / max conjugate_A_conjugate epsilon
  let next_x := fmap2 (fun t conj => t + alpha * conj) s.x s.conjugate
  let next_residual := fmap2 (fun res A_conj => res - alpha * A_conj) s.residual A_conjugate
  let next_squared_residual ← add_n
    (next_residual.map (fun p => reduce_sum (p.2.map (fun r => r * r))))
  let beta := next_squared_residual / max s.squared_residual epsilon
  let next_conjugate := fmap2 (fun res conj => res + beta * conj) next_residual s.conjugate
  return ⟨next_x, next_conjugate, next_residual, next_squared_residual⟩

/-- Models `ConjugateGradient.next_step`: continue while
`squared_residual >= epsilon`; the other state components are unused. -/
def next_step (s : SolverState) : Bool :=
  decide (epsilon ≤ s.squared_residual)

/-- Modelled from the spec: the `Iterative` solver base class (its module
`solvers/iterative.py` is outside the analysed sources) iterates `step` at
most `max_iterations` times, checking the `next_step` predicate before each
iteration and stopping the first time it is false. -/
def iterate (fn_x : StructuredValue → StructuredValue) (damping : ℚ) :
    ℕ → SolverState → Except String SolverState
  | 0, s => Except.ok s
  | n + 1, s =>
    if next_step s then do
      let s2 ← step fn_x damping s
      iterate fn_x damping n s2
    else Except.ok s

/-- Modelled from the spec: `Iterative.solve` runs `start`, drives the
bounded loop with `next_step` as continue predicate, and `end` returns the
solution component of the final state. -/
def solve (fn_x : StructuredValue → StructuredValue) (damping : ℚ) (max_iterations : ℕ)
    (x_init : Option StructuredValue) (b : StructuredValue) :
    Except String StructuredValue := do
  let (x0, c0, r0, sr0) ← start fn_x x_init b
  let sF ← iterate fn_x damping max_iterations ⟨x0, c0, r0, sr0⟩
  return sF.x

/-- A configuration value appearing in an optimizer specification dict. -/
inductive Val where
  | str : String → Val
  | nat : ℕ → Val
  | rat : ℚ → Val
  | dict : List (String × Val) → Val

/-- A Python dict of specification entries, as an ordered association list
with unique keys. -/
abbrev SpecDict := List (String × Val)

/-- Python dict lookup `d[k]` as an option: first (hence, for a dict,
unique) entry whose key is `k`. -/
def dictGet (d : SpecDict) (k : String) : Option Val :=
  match d with
  | [] => none
  | (k2, v) :: rest => if k2 = k then some v else dictGet rest k

/-- Python dict assignment `d[k] = v`: an existing key keeps its position
and gets the new value; a new key is appended at the end. -/
def dictSet (d : SpecDict) (k : String) (v : Val) : SpecDict :=
  match d with
  | [] => [(k, v)]
  | (k2, v2) :: rest => if k2 = k then (k2, v) :: rest else (k2, v2) :: dictSet rest k v

/-- Python `d.update(kw)`: assign every entry of `kw` into `d` in order. -/
def dictUpdate (d : SpecDict) (kw : SpecDict) : SpecDict :=
  kw.foldl (fun acc p => dictSet acc p.1 p.2) d

/-- The nested specification dict built by `UpdateModifierWrapper` before
the registry lookup: the base optimizer spec `dict(type=optimizer)` updated
with the pass-through `kwargs`, then wrapped — innermost to outermost — by
`optimizing_step` (when `optimizing_iterations > 0`), `clipping_step` (when
`clipping_threshold is not None`), `subsampling_step` (when
`subsampling_fraction != 1.0`) and `multi_step` (when `multi_step > 1`). -/
def updateModifierSpec (optimizer : Val) (multi_step : ℕ) (subsampling_fraction : ℚ)
    (clipping_threshold : Option ℚ) (optimizing_iterations : ℕ) (kwargs : SpecDict) :
    SpecDict :=
  let opt := dictUpdate [("type", optimizer)] kwargs
  let opt := if 0 < optimizing_iterations then
      [("type", Val.str "optimizing_step"), ("optimizer", Val.dict opt),
       ("ls_max_iterations", Val.nat optimizing_iterations)]
    else opt
  let opt := match clipping_threshold with
    | some threshold =>
      [("type", Val.str "clipping_step"), ("optimizer", Val.dict opt),
       ("threshold", Val.rat threshold)]
    | none => opt
  let opt := if subsampling_fraction ≠ 1 then
      [("type", Val.str "subsampling_step"), ("optimizer", Val.dict opt),
       ("fraction", Val.rat subsampling_fraction)]
    else opt
  if 1 < multi_step then
    [("type", Val.str "multi_step"), ("optimizer", Val.dict opt),
     ("num_steps", Val.nat multi_step)]
  else opt

/-- The type tags of a nested optimizer specification, outermost first,
descending through the `"optimizer"` entries (fuel-bounded). -/
def layerTags : ℕ → SpecDict → List String
  | 0, _ => []
  | fuel + 1, d =>
    match dictGet d "type" with
    | some (Val.str t) =>
      match dictGet d "optimizer" with
      | some (Val.dict inner) => t :: layerTags fuel inner
      | _ => [t]
    | _ => []

/-- The innermost specification dict of a nested optimizer spec, descending
through the `"optimizer"` entries (fuel-bounded). -/
def innermostSpec : ℕ → SpecDict → SpecDict
  | 0, d => d
  | fuel + 1, d =>
    match dictGet d "optimizer" with
    | some (Val.dict inner) => innermostSpec fuel inner
    | _ => d

/-- Python `d.pop(k)` restricted to removal: the dict without the first
entry whose key is `k`. -/
def dictRemove (d : SpecDict) (k : String) : SpecDict :=
  match d with
  | [] => []
  | (k2, v2) :: rest => if k2 = k then rest else (k2, v2) :: dictRemove rest k

/-- Modelled from the spec: the module registry
`tensorforce.core.optimizer_modules` (defined outside the analysed sources)
maps registered type names to constructors; indexing it with an unknown
type name raises a configuration error (`KeyError`), never substituting a
default. -/
def optimizerModulesLookup (registry : List String) (type_name : String) :
    Except String String :=
  if registry.contains type_name then Except.ok type_name
  else Except.error ("KeyError: " ++ type_name)

/-- Models `UpdateModifierWrapper`: build the nested spec, `pop` its `'type'` key,
resolve it in the module registry and construct the outermost layer; the
construction outcome is modelled as the resolved outermost type name
together with the remaining constructor arguments. -/
def UpdateModifierWrapper (registry : List String) (optimizer : Val) (multi_step : ℕ)
    (subsampling_fraction : ℚ) (clipping_threshold : Option ℚ)
    (optimizing_iterations : ℕ) (kwargs : SpecDict) :
    Except String (String × SpecDict) :=
  let spec := updateModifierSpec optimizer multi_step subsampling_fraction
    clipping_threshold optimizing_iterations kwargs
  match dictGet spec "type" with
  | some (Val.str tname) =>
    match optimizerModulesLookup registry tname with
    | Except.ok c => Except.ok (c, dictRemove spec "type")
    | Except.error e => Except.error e
  | _ => Except.error "TypeError: optimizer type key is not a registry name"

/-- Subtracting a structure from itself elementwise yields the all-zero
structure of the same shape. -/
lemma fmap2_sub_self (v : StructuredValue) :
    fmap2 (fun t ft => t - ft) v v = zeros_like v := by
  simp [fmap2, zeros_like, List.zipWith_same]

/-- Taking the zero structure twice is the same as taking it once. -/
lemma zeros_like_idem (v : StructuredValue) : zeros_like (zeros_like v) = zeros_like v := by
  simp [zeros_like, List.map_map, Function.comp]

/-- On a non-empty input list, `add_n` returns the plain sum. -/
lemma add_n_of_ne_nil (l : List ℚ) (h : l ≠ []) : add_n l = Except.ok l.sum := by
  cases l with
  | nil => exact absurd rfl h
  | cons a rest => rfl

/-- The zero structure has as many keys as its template. -/
lemma zeros_like_length (v : StructuredValue) : (zeros_like v).length = v.length := by
  simp [zeros_like]

/-- Looking up a key other than the one just assigned is unchanged. -/
lemma dictGet_dictSet_ne (d : SpecDict) (k k2 : String) (v : Val) (h : k2 ≠ k) :
    dictGet (dictSet d k v) k2 = dictGet d k2 := by
  have hne : ¬ k = k2 := fun hh => h hh.symm
  induction d with
  | nil => simp [dictSet, dictGet, hne]
  | cons p rest ih =>
    by_cases hk : p.1 = k
    · simp [dictSet, hk, dictGet, hne]
    · simp [dictSet, hk, dictGet, ih]

/-- Looking up the key just assigned yields the assigned value. -/
lemma dictGet_dictSet_self (d : SpecDict) (k : String) (v : Val) :
    dictGet (dictSet d k v) k = some v := by
  induction d with
  | nil => simp [dictSet, dictGet]
  | cons p rest ih =>
    by_cases hk : p.1 = k
    · simp [dictSet, hk, dictGet]
    · simp [dictSet, hk, dictGet, ih]

/-- A `dict.update` with entries that never touch `k` leaves the lookup of
`k` unchanged. -/
lemma dictGet_dictUpdate_of_none (d kw : SpecDict) (k : String)
    (h : dictGet kw k = none) :
    dictGet (dictUpdate d kw) k = dictGet d k := by
  induction kw generalizing d with
  | nil => rfl
  | cons p rest ih =>
    have hp : p.1 ≠ k := by
      intro hh
      simp [dictGet, hh] at h
    have hr : dictGet rest k = none := by
      simpa [dictGet, hp] using h
    show dictGet (dictUpdate (dictSet d p.1 p.2) rest) k = dictGet d k
    rw [ih _ hr, dictGet_dictSet_ne _ _ _ _ (fun hh => hp hh.symm)]

/-- A key absent from the entry list is not found. -/
lemma dictGet_eq_none_of_not_mem (kw : SpecDict) (k : String)
    (h : k ∉ kw.map Prod.fst) :
    dictGet kw k = none := by
  induction kw with
  | nil => rfl
  | cons p rest ih =>
    rw [List.map_cons, List.mem_cons, not_or] at h
    have h1 : ¬ p.1 = k := fun hh => h.1 hh.symm
    simp [dictGet, h1, ih h.2]

/-- A `dict.update` with a dict holding `k` makes the lookup of `k` yield
the updating dict's value. -/
lemma dictGet_dictUpdate_of_mem (d kw : SpecDict) (k : String) (v : Val)
    (hnd : (kw.map Prod.fst).Nodup) (h : dictGet kw k = some v) :
    dictGet (dictUpdate d kw) k = some v := by
  induction kw generalizing d with
  | nil => simp [dictGet] at h
  | cons p rest ih =>
    rw [List.map_cons, List.nodup_cons] at hnd
    by_cases hp : p.1 = k
    · have hv : v = p.2 := by simp [dictGet, hp] at h; exact h.symm
      have hr : dictGet rest k = none :=
        dictGet_eq_none_of_not_mem _ _ (by rw [← hp]; exact hnd.1)
      show dictGet (dictUpdate (dictSet d p.1 p.2) rest) k = some v
      rw [dictGet_dictUpdate_of_none _ _ _ hr, hp, dictGet_dictSet_self, hv]
    · have hr : dictGet rest k = some v := by simpa [dictGet, hp] using h
      show dictGet (dictUpdate (dictSet d p.1 p.2) rest) k = some v
      exact ih _ hnd.2 hr

/-- Peeling one wrapper layer off the tag list. -/
lemma layerTags_wrap (fuel : ℕ) (t : String) (inner : SpecDict) (k3 : String) (v3 : Val) :
    layerTags (fuel + 1) [("type", Val.str t), ("optimizer", Val.dict inner), (k3, v3)] =
      t :: layerTags fuel inner := rfl

/-- A spec dict with a string type tag and no `"optimizer"` entry is a
single base layer. -/
lemma layerTags_base (fuel : ℕ) (d : SpecDict) (t : String)
    (ht : dictGet d "type" = some (Val.str t)) (ho : dictGet d "optimizer" = none) :
    layerTags (fuel + 1) d = [t] := by
  simp [layerTags, ht, ho]

/-- Peeling one wrapper layer off the innermost-spec descent. -/
lemma innermostSpec_wrap (fuel : ℕ) (t : String) (inner : SpecDict) (k3 : String)
    (v3 : Val) :
    innermostSpec (fuel + 1) [("type", Val.str t), ("optimizer", Val.dict inner),
      (k3, v3)] = innermostSpec fuel inner := rfl

/-- The innermost-spec descent stops at a dict with no `"optimizer"` entry. -/
lemma innermostSpec_of_none (fuel : ℕ) (d : SpecDict)
    (ho : dictGet d "optimizer" = none) :
    innermostSpec fuel d = d := by
  cases fuel <;> simp [innermostSpec, ho]

/-- C1 (counterexample to "for every b"): with an empty `b` and `x_init`
unset, `start` does not return the claimed all-zero state with
`squared_residual = 0`; it raises instead, because the sum over zero keys
is rejected by `add_n`. -/
theorem start_nonempty_required_counterexample :
    start (fun v : StructuredValue => v) none [] ≠
      Except.ok (([] : StructuredValue), ([] : StructuredValue), ([] : StructuredValue),
        (0 : ℚ)) := by
  intro h
  have he : start (fun v : StructuredValue => v) none [] =
      Except.error "ValueError: inputs must be a list of at least one Tensor" := rfl
  rw [he] at h
  exact Except.noConfusion h

/-- C1 (amended: `b` non-empty): for every `b` with at least one key and
every structure-preserving `fn_x`, `start` with `x_init` unset uses the
all-zero structure matching `b` as `x_init`, computes
`residual = x_init - fn_x(x_init)` (the non-textbook formula, not
`b - fn_x(x_init)`), sets `conjugate` equal to the residual, and sets
`squared_residual` to the exact sum over all keys of the sums of squares of
the residual's elements. -/
theorem conjugate_gradient_start_spec (fn_x : StructuredValue → StructuredValue)
    (b : StructuredValue)
    (hfn : ∀ v : StructuredValue, (fn_x v).map Prod.fst = v.map Prod.fst)
    (hb : b ≠ []) :
    start fn_x none b =
      Except.ok (zeros_like b,
        fmap2 (fun t ft => t - ft) (zeros_like b) (fn_x (zeros_like b)),
        fmap2 (fun t ft => t - ft) (zeros_like b) (fn_x (zeros_like b)),
        sumOfSquares (fmap2 (fun t ft => t - ft) (zeros_like b) (fn_x (zeros_like b)))) := by
  have h1 : (fn_x (zeros_like b)).length = b.length := by
    have h2 := congrArg List.length (hfn (zeros_like b))
    simpa [zeros_like] using h2
  have hlen : (fmap2 (fun t ft => t - ft) (zeros_like b) (fn_x (zeros_like b))).length
      = b.length := by
    rw [fmap2, List.length_zipWith, zeros_like_length, h1, min_self]
  have hr : fmap2 (fun t ft => t - ft) (zeros_like b) (fn_x (zeros_like b)) ≠ [] := by
    intro hnil
    rw [hnil] at hlen
    exact hb (List.length_eq_zero.mp hlen.symm)
  have hmapne : (fmap2 (fun t ft => t - ft) (zeros_like b) (fn_x (zeros_like b))).map
      (fun p => (List.map (fun r => r * r) p.2).sum) ≠ [] := by
    intro hnil
    exact hr (List.map_eq_nil_iff.mp hnil)
  simp [start, reduce_sum, add_n_of_ne_nil _ hmapne, sumOfSquares,
    Functor.map, Except.map]

/-- C1 witness: the amended start theorem instantiated at a concrete
one-key `b` and the identity operator. -/
theorem conjugate_gradient_start_spec_witness :
    start (fun v : StructuredValue => v) none [("w", [1, 2])] =
      Except.ok (zeros_like [("w", [1, 2])],
        fmap2 (fun t ft => t - ft) (zeros_like [("w", [1, 2])])
          ((fun v : StructuredValue => v) (zeros_like [("w", [1, 2])])),
        fmap2 (fun t ft => t - ft) (zeros_like [("w", [1, 2])])
          ((fun v : StructuredValue => v) (zeros_like [("w", [1, 2])])),
        sumOfSquares (fmap2 (fun t ft => t - ft) (zeros_like [("w", [1, 2])])
          ((fun v : StructuredValue => v) (zeros_like [("w", [1, 2])])))) :=
  conjugate_gradient_start_spec (fun v => v) [("w", [1, 2])] (fun _ => rfl) (by decide)

/-- C2: over the documented knob domains (`multi_step` a positive integer)
and pass-through kwargs not colliding with the `type`/`optimizer` entries,
the nested spec built by `UpdateModifierWrapper` carries exactly the layer
tags multi-step, subsampling, clipping, line-search from outermost to
innermost around the base optimizer, each present if and only if its knob
differs from its disabled default (`multi_step = 1`,
`subsampling_fraction = 1.0`, `clipping_threshold` unset,
`optimizing_iterations = 0`). -/
theorem updateModifierSpec_layer_order (optimizer_type : String) (multi_step : ℕ)
    (subsampling_fraction : ℚ) (clipping_threshold : Option ℚ)
    (optimizing_iterations : ℕ) (kwargs : SpecDict)
    (hms : 0 < multi_step)
    (hkt : dictGet kwargs "type" = none) (hko : dictGet kwargs "optimizer" = none) :
    layerTags 5 (updateModifierSpec (Val.str optimizer_type) multi_step
        subsampling_fraction clipping_threshold optimizing_iterations kwargs) =
      (if multi_step = 1 then [] else ["multi_step"]) ++
      (if subsampling_fraction = 1 then [] else ["subsampling_step"]) ++
      (match clipping_threshold with | none => [] | some _ => ["clipping_step"]) ++
      (if optimizing_iterations = 0 then [] else ["optimizing_step"]) ++
      [optimizer_type] := by
  have hbt : dictGet (dictUpdate [("type", Val.str optimizer_type)] kwargs) "type"
      = some (Val.str optimizer_type) := by
    rw [dictGet_dictUpdate_of_none _ _ _ hkt]; rfl
  have hbo : dictGet (dictUpdate [("type", Val.str optimizer_type)] kwargs) "optimizer"
      = none := by
    rw [dictGet_dictUpdate_of_none _ _ _ hko]; rfl
  have em : (multi_step = 1) ↔ ¬ 1 < multi_step := by omega
  have eo : (optimizing_iterations = 0) ↔ ¬ 0 < optimizing_iterations := by omega
  rcases clipping_threshold with _ | th <;>
    by_cases hoi : 0 < optimizing_iterations <;>
    by_cases hsf : subsampling_fraction = 1 <;>
    by_cases hm : 1 < multi_step <;>
    simp [updateModifierSpec, em, eo, hoi, hsf, hm, layerTags_wrap,
      layerTags_base _ _ _ hbt hbo]

/-- C2 witness: `multi_step = 3` with `clipping_threshold = 1.0` yields a
multi-step layer wrapping a clipping layer wrapping the base optimizer. -/
theorem updateModifierSpec_layer_order_witness :
    0 < 3 ∧ layerTags 5 (updateModifierSpec (Val.str "adam") 3 1 (some 1) 0 []) =
      ["multi_step", "clipping_step", "adam"] :=
  ⟨by decide,
    (updateModifierSpec_layer_order "adam" 3 1 (some 1) 0 [] (by decide) rfl rfl).trans
      rfl⟩

/-- C3: at a concrete non-empty state, `step` raises the `TypeError` of the
`conjugate_A_conjugate` line (binary lambda passed to `fmap` without
`zip_values`) instead of returning the spec's ten-step iterate. -/
theorem step_raises_type_error :
    step (fun v => v) 0 ⟨[("w", [1])], [("w", [1])], [("w", [1])], 1⟩ =
      Except.error "TypeError: <lambda> missing 1 required positional argument" := rfl

/-- C4: even with nonzero damping (and a conjugate of positive norm),
`step` never produces the scalar `conjugate_A_conjugate`: it raises the
`TypeError` of the missing-`zip_values` `fmap` call first, so neither the
undamped iterate nor the damped comparison is computed. -/
theorem step_raises_type_error_with_damping :
    step (fun v => v) (1 / 2) ⟨[("w", [2])], [("w", [2])], [("w", [2])], 4⟩ =
      Except.error "TypeError: <lambda> missing 1 required positional argument" := rfl

/-- C5: `next_step` returns true exactly when `squared_residual` is at
least the library epsilon (the same `epsilon` constant used as the division
floor in `step`), and its value depends only on the `squared_residual`
component of the state. -/
theorem next_step_characterization (s : SolverState) :
    (next_step s = true ↔ epsilon ≤ s.squared_residual) ∧
    ∀ x2 c2 r2 : StructuredValue,
      next_step ⟨x2, c2, r2, s.squared_residual⟩ = next_step s :=
  ⟨by simp [next_step], fun _ _ _ => rfl⟩

/-- C6 (counterexample): at the empty `b`, `start` raises the `ValueError`
of the empty `add_n` sum rather than succeeding with
`squared_residual = 0`. -/
theorem start_empty_b_error_example :
    start (fun v : StructuredValue => v) none [] =
      Except.error "ValueError: inputs must be a list of at least one Tensor" := rfl

/-- C6 (amended): for every `fn_x`, `start` on an empty-structure `b` with
`x_init` unset fails with the empty-sum error (the sum over zero keys is
rejected), so no `squared_residual` is produced and the solve cannot
terminate normally. -/
theorem start_empty_b_raises (fn_x : StructuredValue → StructuredValue) :
    start fn_x none [] =
      Except.error "ValueError: inputs must be a list of at least one Tensor" := rfl

/-- C7: whenever the resolved outermost type tag of the nested spec is not
registered in the module registry, `UpdateModifierWrapper` fails at
construction with the registry's configuration error, never substituting a
default. -/
theorem unknown_type_raises_config_error (registry : List String) (optimizer : Val)
    (multi_step : ℕ) (subsampling_fraction : ℚ) (clipping_threshold : Option ℚ)
    (optimizing_iterations : ℕ) (kwargs : SpecDict) (tname : String)
    (ht : dictGet (updateModifierSpec optimizer multi_step subsampling_fraction
        clipping_threshold optimizing_iterations kwargs) "type" = some (Val.str tname))
    (hreg : registry.contains tname = false) :
    UpdateModifierWrapper registry optimizer multi_step subsampling_fraction
        clipping_threshold optimizing_iterations kwargs =
      Except.error ("KeyError: " ++ tname) := by
  have hmem : tname ∉ registry := by simpa using hreg
  simp [UpdateModifierWrapper, ht, optimizerModulesLookup, hmem]

/-- C7 witness: an unregistered base type name fails construction with the
configuration error. -/
theorem unknown_type_raises_config_error_witness :
    UpdateModifierWrapper ["adam", "multi_step"] (Val.str "nadam") 1 1 none 0 [] =
      Except.error ("KeyError: " ++ "nadam") :=
  unknown_type_raises_config_error ["adam", "multi_step"] (Val.str "nadam") 1 1 none 0
    [] "nadam" rfl rfl

/-- C8: the claimed invariant cannot be maintained across `step`, because
`step` never returns a state at all on non-empty structures: it raises the
`TypeError` of the missing-`zip_values` `fmap` call before recomputing
`squared_residual`. -/
theorem step_never_yields_state :
    step (fun v => v) 0 ⟨[("v", [1, 2])], [("v", [1, 2])], [("v", [1, 2])], 5⟩ =
      Except.error "TypeError: <lambda> missing 1 required positional argument" := rfl

/-- C9 (counterexample to "regardless of b"): the identity operator maps
the zero structure of the empty `b` to itself, yet `solve` on the empty `b`
does not return the zero vector — it propagates the empty-sum error raised
in `start`. -/
theorem solve_empty_b_counterexample :
    (fun v : StructuredValue => v) (zeros_like ([] : StructuredValue)) =
        zeros_like ([] : StructuredValue) ∧
    solve (fun v : StructuredValue => v) 0 5 none [] ≠
      Except.ok (zeros_like ([] : StructuredValue)) := by
  refine ⟨rfl, ?_⟩
  intro h
  have he : solve (fun v : StructuredValue => v) 0 5 none [] =
      Except.error "ValueError: inputs must be a list of at least one Tensor" := rfl
  rw [he] at h
  exact Except.noConfusion h

/-- C9 (amended: `b` non-empty): if `x_init` is unset and `fn_x` fixes the
all-zero structure, `start` yields the all-zero state with
`squared_residual = 0`, `next_step` is false before any `step` runs, and
`solve` returns the zero vector regardless of the (non-empty) `b` — the
consequence of computing the initial residual from `x_init` instead of
`b`. -/
theorem solve_returns_zero_when_xinit_unset (fn_x : StructuredValue → StructuredValue)
    (b : StructuredValue) (damping : ℚ) (max_iterations : ℕ)
    (hb : b ≠ []) (hz : fn_x (zeros_like b) = zeros_like b) :
    start fn_x none b = Except.ok (zeros_like b, zeros_like b, zeros_like b, 0) ∧
    next_step ⟨zeros_like b, zeros_like b, zeros_like b, 0⟩ = false ∧
    solve fn_x damping max_iterations none b = Except.ok (zeros_like b) := by
  have hres : fmap2 (fun t ft => t - ft) (zeros_like b) (fn_x (zeros_like b))
      = zeros_like b := by
    rw [hz, fmap2_sub_self, zeros_like_idem]
  have hmap : (zeros_like b).map
      (fun p => (List.map (fun r => r * r) p.2).sum) = b.map (fun _ => (0 : ℚ)) := by
    rw [zeros_like, List.map_map]
    refine List.map_congr_left ?_
    intro p hp
    simp [Function.comp, List.map_replicate, List.sum_replicate]
  have hsum : add_n ((zeros_like b).map
      (fun p => (List.map (fun r => r * r) p.2).sum)) = Except.ok 0 := by
    rw [hmap, add_n_of_ne_nil]
    · simp [List.sum_eq_zero]
    · simp [hb]
  have hstart : start fn_x none b =
      Except.ok (zeros_like b, zeros_like b, zeros_like b, 0) := by
    simp [start, hres, hsum, reduce_sum, Functor.map, Except.map]
  have hns : next_step ⟨zeros_like b, zeros_like b, zeros_like b, 0⟩ = false := by
    simp [next_step, epsilon]
  have hiter : iterate fn_x damping max_iterations
      ⟨zeros_like b, zeros_like b, zeros_like b, 0⟩ =
      Except.ok ⟨zeros_like b, zeros_like b, zeros_like b, 0⟩ := by
    cases max_iterations <;> simp [iterate, hns]
  refine ⟨hstart, hns, ?_⟩
  simp [solve, hstart, hiter, Bind.bind, Except.bind, Functor.map, Except.map, pure,
    Except.pure]

/-- C9 witness: the amended theorem instantiated at a concrete one-key `b`
and the identity operator. -/
theorem solve_returns_zero_when_xinit_unset_witness :
    start (fun v : StructuredValue => v) none [("w", [3])] =
      Except.ok (zeros_like [("w", [3])], zeros_like [("w", [3])],
        zeros_like [("w", [3])], 0) ∧
    next_step ⟨zeros_like [("w", [3])], zeros_like [("w", [3])],
      zeros_like [("w", [3])], 0⟩ = false ∧
    solve (fun v : StructuredValue => v) 0 3 none [("w", [3])] =
      Except.ok (zeros_like [("w", [3])]) :=
  solve_returns_zero_when_xinit_unset (fun v => v) [("w", [3])] 0 3 (by decide) rfl

/-- C10: when the pass-through kwargs contain a `type` entry (and no
`optimizer` entry), its value silently replaces the base optimizer type
supplied via the `optimizer` argument, so the innermost layer of the
constructed spec carries the kwargs-supplied type. -/
theorem kwargs_type_overrides_base (optimizer v : Val) (multi_step : ℕ)
    (subsampling_fraction : ℚ) (clipping_threshold : Option ℚ)
    (optimizing_iterations : ℕ) (kwargs : SpecDict)
    (hnd : (kwargs.map Prod.fst).Nodup)
    (hv : dictGet kwargs "type" = some v)
    (hko : dictGet kwargs "optimizer" = none) :
    dictGet (innermostSpec 4 (updateModifierSpec optimizer multi_step
        subsampling_fraction clipping_threshold optimizing_iterations kwargs))
      "type" = some v := by
  have hbt : dictGet (dictUpdate [("type", optimizer)] kwargs) "type" = some v :=
    dictGet_dictUpdate_of_mem _ _ _ _ hnd hv
  have hbo : dictGet (dictUpdate [("type", optimizer)] kwargs) "optimizer" = none := by
    rw [dictGet_dictUpdate_of_none _ _ _ hko]; rfl
  rcases clipping_threshold with _ | th <;>
    by_cases hoi : 0 < optimizing_iterations <;>
    by_cases hsf : subsampling_fraction = 1 <;>
    by_cases hm : 1 < multi_step <;>
    simp [updateModifierSpec, hoi, hsf, hm, innermostSpec_wrap,
      innermostSpec_of_none _ _ hbo, hbt]

/-- C10 witness: a kwargs `type` entry of `"sgd"` replaces the base
optimizer type `"adam"` in the innermost layer of a multi-step-wrapped
spec. -/
theorem kwargs_type_overrides_base_witness :
    dictGet (innermostSpec 4 (updateModifierSpec (Val.str "adam") 2 1 none 0
        [("type", Val.str "sgd"), ("lr", Val.rat 1)])) "type" =
      some (Val.str "sgd") :=
  kwargs_type_overrides_base (Val.str "adam") (Val.str "sgd") 2 1 none 0
    [("type", Val.str "sgd"), ("lr", Val.rat 1)] (by decide) rfl rfl

end Tensorforce
